import Mathlib

/-!
Verification of the COVID-19 Data Explorer dashboard (`streamlit_app.py`).

The script is embedded shallowly:

* a pandas dataframe row of the OWID dataset is a `Row` (numeric columns are
  `Option ℚ`, where `none` models a missing value / NaN);
* `fetch_covid_data` is modelled as a function from the outcome of its `try`
  block (`Except String (List Row)`: either the parsed CSV or an exception
  raised anywhere during fetch or preprocessing) to the returned dataframe
  and the Streamlit UI events emitted;
* `groupby('location').last().reset_index()` is `latestData`: pandas
  `GroupBy.last` sorts the group keys and takes, for every column
  independently, the last non-null entry of the group in row order;
* the four page sections are state-passing functions
  `AppState → AppState × List UIEvent`, so mutation (or its absence) is
  explicit;
* the `st.cache_data(ttl=24*3600)` decorator is modelled as a small cache
  state machine, and the arguments the script passes to the scikit-learn
  calls are modelled as argument records compared against the library
  defaults.
-/

namespace CovidExplorer

/-- One row of the OWID COVID-19 CSV, restricted to the columns the script
touches.  Numeric columns are `Option ℚ`: `none` is a missing value (NaN).
`date` is a day number (`pd.to_datetime` already applied). -/
structure Row where
  location : String
  date : Int
  total_cases : Option ℚ
  new_cases : Option ℚ
  total_deaths : Option ℚ
  new_deaths : Option ℚ
  total_vaccinations : Option ℚ
  people_fully_vaccinated : Option ℚ
  population : Option ℚ
deriving DecidableEq, Repr

/-- `fillna(0)` on a single cell: a missing value becomes `0`, a present
value is kept. -/
def fillna0 (x : Option ℚ) : Option ℚ :=
  some (x.getD 0)

/-- The preprocessing loop of `fetch_covid_data`: `df[col].fillna(0)` for the
six columns in `columns_to_fill`; `location`, `date` and `population` are
untouched. -/
def fillRow (r : Row) : Row :=
  { r with
    total_cases := fillna0 r.total_cases
    new_cases := fillna0 r.new_cases
    total_deaths := fillna0 r.total_deaths
    new_deaths := fillna0 r.new_deaths
    total_vaccinations := fillna0 r.total_vaccinations
    people_fully_vaccinated := fillna0 r.people_fully_vaccinated }

/-- The whole-dataframe preprocessing of `fetch_covid_data` (the
`columns_to_fill` loop applied row-wise; date parsing is already reflected in
`Row.date`). -/
def preprocess (df : List Row) : List Row :=
  df.map fillRow

/-- Streamlit UI events emitted while a page renders. -/
inductive ChartKind where
  | scatter_geo
  | choropleth
  | line
  | bar
deriving DecidableEq, Repr

/-- Extended-precision value of the vaccination-percentage column: pandas
float division can produce infinities and NaN. -/
inductive NumVal where
  | num (q : ℚ)
  | posInf
  | negInf
  | nan
deriving DecidableEq, Repr

/-- `NumVal.isFinite v` holds when `v` is an ordinary number. -/
def NumVal.isFinite : NumVal → Bool
  | .num _ => true
  | _ => false

/-- Float semantics of `a / b * 100` as used by `vaccination_progress`, where
either operand may be missing (NaN): division of a nonzero number by zero
gives a signed infinity, `0 / 0` gives NaN, and NaN propagates. -/
def pctOfNum (a b : Option ℚ) : NumVal :=
  match a, b with
  | some x, some y =>
    if y = 0 then
      if x = 0 then .nan
      else if 0 < x then .posInf
      else .negInf
    else .num (x / y * 100)
  | _, _ => .nan

/-- Last non-null entry of a column within a group, in row order — the
per-column semantics of pandas `GroupBy.last` (its default `skipna=True`).
Returns `none` when every entry is missing. -/
def lastSome (f : Row → Option ℚ) (g : List Row) : Option ℚ :=
  g.foldl (fun acc r => match f r with | some v => some v | none => acc) none

/-- The aggregated row `GroupBy.last` produces for the group `g` of rows of
location `loc`: each column independently takes its last non-null entry
(`date` is never null, so it is the date of the positionally last row). -/
def groupLast (loc : String) (g : List Row) : Row :=
  { location := loc
    date := ((g.map Row.date).getLast?).getD 0
    total_cases := lastSome Row.total_cases g
    new_cases := lastSome Row.new_cases g
    total_deaths := lastSome Row.total_deaths g
    new_deaths := lastSome Row.new_deaths g
    total_vaccinations := lastSome Row.total_vaccinations g
    people_fully_vaccinated := lastSome Row.people_fully_vaccinated g
    population := lastSome Row.population g }

/-- `groupby` sorts its group keys (`sort=True` default); `sortStrings` is
that sort. -/
def sortStrings (ls : List String) : List String :=
  ls.insertionSort (· ≤ ·)

/-- The distinct locations of the dataframe, in the sorted order `groupby`
uses. -/
def groupKeys (df : List Row) : List String :=
  sortStrings (df.map Row.location).dedup

/-- `self.df.groupby('location').last().reset_index()`: one aggregated row
per distinct location, locations sorted. -/
def latestData (df : List Row) : List Row :=
  (groupKeys df).map fun loc => groupLast loc (df.filter fun r => r.location == loc)

/-- `sorted(self.df['location'].unique())`. -/
def countriesOf (df : List Row) : List String :=
  sortStrings (df.map Row.location).dedup

/-- Streamlit calls the script makes while rendering, in order.  Chart
payloads carry the dataframe handed to plotly. -/
inductive UIEvent where
  /-- `st.header` -/
  | header (s : String)
  /-- `st.subheader` -/
  | subheader (s : String)
  /-- `st.metric` with its label and numeric value -/
  | metric (label : String) (value : ℚ)
  /-- `st.error` -/
  | error (s : String)
  /-- `px.scatter_geo` / `px.choropleth`: rows paired with their
  `log_cases` column, the colour column and the size column -/
  | geoChart (kind : ChartKind) (rows : List (Row × Option ℚ))
      (colorCol sizeCol : String)
  /-- `px.line` over the filtered time-series rows -/
  | lineChart (rows : List Row) (ycols : List String)
  /-- `px.bar` over plain rows -/
  | barChart (rows : List Row) (x y : String)
  /-- `px.bar` over rows extended with the `vaccination_percentage` column -/
  | barChartPct (rows : List (Row × NumVal)) (x y : String)
  /-- the prediction scatter (`x_test`, `y_test`, `y_pred` triples) -/
  | predChart (pts : List (ℚ × ℚ × ℚ))
deriving DecidableEq, Repr

/-- Marks the events that belong to one of the four page sections (every
section starts with `st.header` and renders charts/metrics). -/
def UIEvent.isSectionContent : UIEvent → Bool
  | .error _ => false
  | _ => true

/-- The fixed URL `fetch_covid_data` downloads. -/
def owid_url : String :=
  "https://raw.githubusercontent.com/owid/covid-19-data/master/public/data/owid-covid-data.csv"

/-- `fetch_covid_data` (the body under the cache decorator).  Its `try`
block either completes — `attempt = .ok raw` with `raw` the parsed CSV, the
date parsing and fillna loop then being total — or raises an exception `e`
anywhere during the fetch or preprocessing — `attempt = .error e`.  Returns
the dataframe (or `None`) together with the UI events emitted. -/
def fetch_covid_data (attempt : Except String (List Row)) :
    Option (List Row) × List UIEvent :=
  match attempt with
  | .ok raw => (some (preprocess raw), [])
  | .error e => (none, [.error ("Error loading data: " ++ e)])

/-- An outbound network request. -/
structure NetRequest where
  method : String
  url : String
deriving DecidableEq, Repr

/-- Network trace of the body of `fetch_covid_data`: `pd.read_csv(url)` is
its one request. -/
def fetchNetTrace : List NetRequest :=
  [{ method := "GET", url := owid_url }]

/-- Network trace of everything outside `fetch_covid_data`: all `st.*` and
plotly calls are local renderings. -/
def renderNetTrace : List NetRequest :=
  []

/-- Network trace of a whole run: the fetch body only runs on a cache miss. -/
def programNetTrace (cacheHit : Bool) : List NetRequest :=
  (if cacheHit then [] else fetchNetTrace) ++ renderNetTrace

/-- The `ttl=24*3600` argument of the single `st.cache_data` decorator, in
seconds. -/
def cacheTTL : ℚ := 24 * 3600

/-- A stored `st.cache_data` entry: the cached return value (possibly the
cached `None`) and the time it was stored. -/
structure CacheEntry where
  value : Option (List Row)
  storedAt : ℚ
deriving DecidableEq, Repr

/-- An entry is served while its age is below the TTL. -/
def cacheFresh (now : ℚ) (e : CacheEntry) : Bool :=
  decide (now - e.storedAt < cacheTTL)

/-- One call of the decorated `fetch_covid_data` at time `now`:
returns the value produced, the new cache state, and whether the underlying
fetch body ran. -/
def cachedFetch (attempt : Except String (List Row)) (now : ℚ)
    (cache : Option CacheEntry) :
    Option (List Row) × Option CacheEntry × Bool :=
  match cache with
  | some e =>
    if cacheFresh now e then (e.value, some e, false)
    else ((fetch_covid_data attempt).1, some ⟨(fetch_covid_data attempt).1, now⟩, true)
  | none => ((fetch_covid_data attempt).1, some ⟨(fetch_covid_data attempt).1, now⟩, true)

/-- The mutable attributes of `COVIDDataExplorer` set by `load_data`. -/
structure AppState where
  df : Option (List Row)
  latest_data : List Row
  countries : List String
deriving DecidableEq, Repr

/-- `load_data` after the fetch: when the dataframe is not `None` it derives
`latest_data` and `countries`; otherwise those attributes are never set
(modelled as empty, and never read by `main` in that case). -/
def loadState (fetched : Option (List Row)) : AppState :=
  match fetched with
  | some df => { df := some df, latest_data := latestData df, countries := countriesOf df }
  | none => { df := none, latest_data := [], countries := [] }

/-- The dataframe a section reads through `self.df` (sections run only when
it is not `None`). -/
def AppState.dfRows (s : AppState) : List Row :=
  s.df.getD []

/-- pandas `Series.sum()` over a column: missing entries are skipped
(`skipna=True` default). -/
def colSum (f : Row → Option ℚ) (rows : List Row) : ℚ :=
  rows.foldl (fun acc r => acc + (f r).getD 0) 0

/-- Descending comparison on a numeric column, used to model
`DataFrame.nlargest` (rows with a missing key are dropped beforehand, as
pandas drops NaN keys). -/
def descBy (key : Row → Option ℚ) (a b : Row) : Prop :=
  (key b).getD 0 ≤ (key a).getD 0

instance (key : Row → Option ℚ) : DecidableRel (descBy key) := fun a b =>
  inferInstanceAs (Decidable ((key b).getD 0 ≤ (key a).getD 0))

instance (key : Row → Option ℚ) : IsTotal Row (descBy key) :=
  ⟨fun a b => le_total ((key b).getD 0) ((key a).getD 0)⟩

instance (key : Row → Option ℚ) : IsTrans Row (descBy key) :=
  ⟨fun _ _ _ hab hbc => le_trans hbc hab⟩

/-- `DataFrame.nlargest n key`: drop rows whose key is missing, sort stably
in descending key order, keep the first `n`. -/
def nlargestBy (n : Nat) (key : Row → Option ℚ) (rows : List Row) : List Row :=
  ((rows.filter fun r => (key r).isSome).insertionSort (descBy key)).take n

/-- The `vaccination_percentage` column added by `vaccination_progress`:
`people_fully_vaccinated / population * 100` under pandas float semantics. -/
def vaccPercent (r : Row) : NumVal :=
  pctOfNum r.people_fully_vaccinated r.population

/-- Output of the scikit-learn pipeline inside `predictive_modeling`
(test points with predictions, and the two scores); its numeric content is
library behaviour, kept abstract. -/
structure RegOut where
  pts : List (ℚ × ℚ × ℚ)
  mse : ℚ
  r2 : ℚ

/-- Library functions the script calls whose numeric behaviour is not
modelled: `np.log1p` on a present value, and the regression pipeline. -/
structure RenderParams where
  log1p : ℚ → ℚ
  regress : List (Int × Option ℚ) → RegOut

/-- The widget values a rendering run receives. -/
structure Inputs where
  tsCountries : List String
  tsMetrics : List String
  d0 : Int
  d1 : Int
  predictCountry : String

/-- `global_overview`: four metrics over `latest_data`, then the world map.
`map_data` is a copy of `latest_data` extended with the `log_cases` column;
the map is drawn with `px.scatter_geo`, coloured by `total_cases` and sized
by `log_cases`.  The state is returned unchanged. -/
def global_overview (p : RenderParams) (s : AppState) : AppState × List UIEvent :=
  let map_data := s.latest_data.map fun r => (r, r.total_cases.map p.log1p)
  (s,
    [ .header "Global COVID-19 Snapshot"
    , .metric "Total Global Cases" (colSum Row.total_cases s.latest_data)
    , .metric "Total Global Deaths" (colSum Row.total_deaths s.latest_data)
    , .metric "Total Vaccinations" (colSum Row.total_vaccinations s.latest_data)
    , .metric "Countries Affected" (s.latest_data.length : ℚ)
    , .subheader "Global Case Distribution"
    , .geoChart .scatter_geo map_data "total_cases" "log_cases" ])

/-- `time_series_analysis`: filter `self.df` to the selected countries and
the inclusive date range, plot the selected metrics. -/
def time_series_analysis (inp : Inputs) (s : AppState) : AppState × List UIEvent :=
  let filtered := s.dfRows.filter fun r =>
    inp.tsCountries.contains r.location && decide (inp.d0 ≤ r.date)
      && decide (r.date ≤ inp.d1)
  (s, [.header "Time Series Analysis", .lineChart filtered inp.tsMetrics])

/-- `vaccination_progress`: top-10 rows of `latest_data` by
`total_vaccinations`, then the same rows extended with the
`vaccination_percentage` column.  The extension happens on the `nlargest`
result only; the state is returned unchanged. -/
def vaccination_progress (s : AppState) : AppState × List UIEvent :=
  let top_vaccination := nlargestBy 10 Row.total_vaccinations s.latest_data
  let withPct := top_vaccination.map fun r => (r, vaccPercent r)
  (s,
    [ .header "Vaccination Progress"
    , .barChart top_vaccination "location" "total_vaccinations"
    , .barChartPct withPct "location" "vaccination_percentage" ])

/-- `predictive_modeling`: restrict `self.df` to the chosen country, derive
`days_since_start`, run the regression pipeline, report its scores and test
predictions.  The state is returned unchanged. -/
def predictive_modeling (p : RenderParams) (inp : Inputs) (s : AppState) :
    AppState × List UIEvent :=
  let country_data := s.dfRows.filter fun r => r.location == inp.predictCountry
  let minDate := ((country_data.map Row.date).min?).getD 0
  let xy := country_data.map fun r => (r.date - minDate, r.total_cases)
  let out := p.regress xy
  (s,
    [ .header "Predictive Modeling"
    , .metric "Mean Squared Error" out.mse
    , .metric "R² Score" out.r2
    , .predChart out.pts ])

/-- A call to one of the four section renderers. -/
inductive SectionCall where
  | overview
  | timeSeries
  | vaccination
  | prediction
deriving DecidableEq, Repr

/-- Dispatch one section call. -/
def runSection (p : RenderParams) (inp : Inputs) (c : SectionCall) (s : AppState) :
    AppState × List UIEvent :=
  match c with
  | .overview => global_overview p s
  | .timeSeries => time_series_analysis inp s
  | .vaccination => vaccination_progress s
  | .prediction => predictive_modeling p inp s

/-- Run a sequence of section calls, threading the state and collecting the
events. -/
def runSections (p : RenderParams) (inp : Inputs) :
    List SectionCall → AppState → AppState × List UIEvent
  | [], s => (s, [])
  | c :: cs, s =>
    let (s1, e1) := runSection p inp c s
    let (s2, e2) := runSections p inp cs s1
    (s2, e1 ++ e2)

/-- `COVIDDataExplorer.main`: when `self.df` is not `None`, render the four
sections in order; otherwise render only the connection error. -/
def mainRender (p : RenderParams) (inp : Inputs) (s : AppState) : List UIEvent :=
  match s.df with
  | some _ =>
    (runSections p inp [.overview, .timeSeries, .vaccination, .prediction] s).2
  | none => [.error "Unable to load COVID-19 data. Please check your connection."]

/-- A whole run of the script: fetch (with its `try` outcome), build the
explorer state, render. -/
def appRun (p : RenderParams) (inp : Inputs) (attempt : Except String (List Row)) :
    List UIEvent :=
  let (fetched, fetchEvents) := fetch_covid_data attempt
  fetchEvents ++ mainRender p inp (loadState fetched)

/-- The parameters of `sklearn.model_selection.train_test_split` relevant to
a two-array call; `none` in an `Option` field means the argument is left to
the library (its sentinel default `None`). -/
structure TrainTestSplitArgs where
  test_size : Option ℚ
  train_size : Option ℚ
  random_state : Option ℕ
  shuffle : Bool
  stratify : Bool
deriving DecidableEq, Repr

/-- The library defaults of `train_test_split`: `test_size=None`,
`train_size=None`, `random_state=None`, `shuffle=True`, `stratify=None`. -/
def train_test_split_defaults : TrainTestSplitArgs :=
  { test_size := none, train_size := none, random_state := none
    shuffle := true, stratify := false }

/-- The arguments `predictive_modeling` passes:
`train_test_split(X, y, test_size=0.2, random_state=42)`. -/
def split_call_args : TrainTestSplitArgs :=
  { test_size := some (1/5), train_size := none, random_state := some 42
    shuffle := true, stratify := false }

/-- The constructor parameters of `sklearn.linear_model.LinearRegression`. -/
structure LinearRegressionArgs where
  fit_intercept : Bool
  copy_X : Bool
  n_jobs : Option ℕ
  positive : Bool
deriving DecidableEq, Repr

/-- The `LinearRegression` defaults. -/
def linear_regression_defaults : LinearRegressionArgs :=
  { fit_intercept := true, copy_X := true, n_jobs := none, positive := false }

/-- `predictive_modeling` constructs the model with `LinearRegression()`. -/
def model_call_args : LinearRegressionArgs := linear_regression_defaults

/-- The keyword parameters of `mean_squared_error` / `r2_score` beyond the
two positional arrays: `sample_weight` and `multioutput`; `none` /
`"uniform_average"` are the defaults. -/
structure ScoreArgs where
  sample_weight : Bool
  multioutput : String
deriving DecidableEq, Repr

/-- The scoring defaults. -/
def score_defaults : ScoreArgs :=
  { sample_weight := false, multioutput := "uniform_average" }

/-- `mean_squared_error(y_test, y_pred)` as called by the script. -/
def mse_call_args : ScoreArgs := score_defaults

/-- `r2_score(y_test, y_pred)` as called by the script. -/
def r2_call_args : ScoreArgs := score_defaults

/-- The names of the library routines the regression step calls, in order,
one call each: the split, the fit, the prediction, the two scorings. -/
def regression_step_calls : List String :=
  ["train_test_split", "LinearRegression.fit", "LinearRegression.predict",
   "mean_squared_error", "r2_score"]

/-! ### Sample data and parameters used by witnesses and counterexamples -/

/-- A row with every numeric column missing. -/
def rowMissing : Row :=
  { location := "A", date := 0, total_cases := none, new_cases := none
    total_deaths := none, new_deaths := none, total_vaccinations := none
    people_fully_vaccinated := none, population := none }

/-- Trivial stand-ins for the unmodelled library functions. -/
def trivialParams : RenderParams :=
  { log1p := id, regress := fun _ => { pts := [], mse := 0, r2 := 0 } }

/-- A fixed widget-input record. -/
def sampleInputs : Inputs :=
  { tsCountries := [], tsMetrics := [], d0 := 0, d1 := 0, predictCountry := "A" }

/-! ### C2: missing-value fill -/

/-- C2: preprocessing keeps the dataframe shape; in every row each of the six
`columns_to_fill` becomes `some (old value or 0)` — so it is never missing, a
missing entry becomes `0`, a present entry is unchanged — while `location`,
`date` and `population` are exactly as fetched. -/
theorem C2_missing_value_fill (df : List Row) :
    (preprocess df).length = df.length ∧
    ∀ i (hi : i < df.length),
      (preprocess df).get ⟨i, by simpa [preprocess] using hi⟩ = fillRow (df.get ⟨i, hi⟩) ∧
      (fillRow (df.get ⟨i, hi⟩)).total_cases = some ((df.get ⟨i, hi⟩).total_cases.getD 0) ∧
      (fillRow (df.get ⟨i, hi⟩)).new_cases = some ((df.get ⟨i, hi⟩).new_cases.getD 0) ∧
      (fillRow (df.get ⟨i, hi⟩)).total_deaths = some ((df.get ⟨i, hi⟩).total_deaths.getD 0) ∧
      (fillRow (df.get ⟨i, hi⟩)).new_deaths = some ((df.get ⟨i, hi⟩).new_deaths.getD 0) ∧
      (fillRow (df.get ⟨i, hi⟩)).total_vaccinations
        = some ((df.get ⟨i, hi⟩).total_vaccinations.getD 0) ∧
      (fillRow (df.get ⟨i, hi⟩)).people_fully_vaccinated
        = some ((df.get ⟨i, hi⟩).people_fully_vaccinated.getD 0) ∧
      (fillRow (df.get ⟨i, hi⟩)).population = (df.get ⟨i, hi⟩).population ∧
      (fillRow (df.get ⟨i, hi⟩)).location = (df.get ⟨i, hi⟩).location ∧
      (fillRow (df.get ⟨i, hi⟩)).date = (df.get ⟨i, hi⟩).date := by
  refine ⟨by simp [preprocess], fun i hi => ?_⟩
  refine ⟨?_, rfl, rfl, rfl, rfl, rfl, rfl, rfl, rfl, rfl⟩
  simp [preprocess]

/-- Witness for C2 at a concrete one-row dataframe whose columns are all
missing. -/
theorem C2_missing_value_fill_witness :
    (preprocess [rowMissing]).length = 1 ∧
    (fillRow ((
      [rowMissing] : List Row).get ⟨0, by decide⟩)).total_cases = some 0 ∧
    (fillRow (([rowMissing] : List Row).get ⟨0, by decide⟩)).population = none := by
  have h := C2_missing_value_fill [rowMissing]
  have h0 := h.2 0 (by decide)
  exact ⟨h.1, h0.2.1, h0.2.2.2.2.2.2.2.1⟩

/-! ### C3: broad exception handling and the unusable page -/

/-- C3: when the fetch/preprocessing attempt raises any exception `e`,
`fetch_covid_data` returns `None` after emitting the single error message;
and when the loaded dataframe is `None`, `main` renders exactly one error
message and no section content, so a failing run emits only error events. -/
theorem C3_fetch_error_handling (e : String) (p : RenderParams) (inp : Inputs) :
    fetch_covid_data (Except.error e) =
      (none, [UIEvent.error ("Error loading data: " ++ e)]) ∧
    mainRender p inp (loadState none) =
      [UIEvent.error "Unable to load COVID-19 data. Please check your connection."] ∧
    (∀ ev ∈ mainRender p inp (loadState none), ev.isSectionContent = false) ∧
    appRun p inp (Except.error e) =
      [UIEvent.error ("Error loading data: " ++ e),
       UIEvent.error "Unable to load COVID-19 data. Please check your connection."] := by
  refine ⟨rfl, rfl, ?_, rfl⟩
  intro ev hev
  simp only [mainRender, loadState, List.mem_singleton] at hev
  simp [hev, UIEvent.isSectionContent]

/-- Witness for C3 at a concrete exception string and trivial parameters. -/
theorem C3_fetch_error_handling_witness :
    fetch_covid_data (Except.error "timeout") =
      (none, [UIEvent.error "Error loading data: timeout"]) ∧
    (UIEvent.error
        "Unable to load COVID-19 data. Please check your connection.").isSectionContent
      = false := by
  have h := C3_fetch_error_handling "timeout" trivialParams sampleInputs
  exact ⟨h.1, h.2.2.1 _ (by rw [h.2.1]; exact List.mem_singleton.mpr rfl)⟩

/-! ### C6: the 24-hour TTL cache -/

/-- C6: the single `st.cache_data` decorator carries `ttl = 24*3600 = 86400`
seconds; a call within the TTL of the stored entry returns the cached value
and performs no fetch; a call at or after expiry (or with an empty cache)
runs the fetch body and stores its result at the current time. -/
theorem C6_cache_ttl (attempt : Except String (List Row)) (now : ℚ) (e : CacheEntry) :
    cacheTTL = 86400 ∧
    (now - e.storedAt < cacheTTL →
      cachedFetch attempt now (some e) = (e.value, some e, false)) ∧
    (cacheTTL ≤ now - e.storedAt →
      cachedFetch attempt now (some e) =
        ((fetch_covid_data attempt).1,
         some ⟨(fetch_covid_data attempt).1, now⟩, true)) ∧
    cachedFetch attempt now none =
      ((fetch_covid_data attempt).1,
       some ⟨(fetch_covid_data attempt).1, now⟩, true) := by
  refine ⟨by norm_num [cacheTTL], fun hfresh => ?_, fun hexp => ?_, rfl⟩
  · simp [cachedFetch, cacheFresh, hfresh]
  · simp [cachedFetch, cacheFresh, not_lt.mpr hexp]

/-- Witness for C6: a cache entry stored at time 0 is served at time 1000 and
refetched at time 90000. -/
theorem C6_cache_ttl_witness :
    cachedFetch (Except.error "x") 1000 (some { value := none, storedAt := 0 }) =
      (none, some { value := none, storedAt := 0 }, false) ∧
    (cachedFetch (Except.error "x") 90000
        (some { value := none, storedAt := 0 })).2.2 = true := by
  have h := C6_cache_ttl (Except.error "x") 1000 { value := none, storedAt := 0 }
  have h2 := C6_cache_ttl (Except.error "x") 90000 { value := none, storedAt := 0 }
  refine ⟨h.2.1 (by norm_num [cacheTTL]), ?_⟩
  rw [h2.2.2.1 (by norm_num [cacheTTL])]

/-! ### C7: a single outbound GET -/

set_option maxRecDepth 4000 in
/-- C7: on a cache miss the program performs exactly one network request, an
HTTPS GET of the fixed OWID CSV URL (its first eight characters are the
`https://` scheme); the rendering code performs none, and a cache-hit run
performs none. -/
theorem C7_single_https_get :
    programNetTrace false = [{ method := "GET", url := owid_url }] ∧
    owid_url.data.take 8 = "https://".data ∧
    renderNetTrace = [] ∧
    programNetTrace true = [] :=
  ⟨rfl, rfl, rfl, rfl⟩

/-! ### C4: regression-call parameters -/

/-- C4 counterexample: the claim that none of the regression-step calls
deviates from the library defaults is false — the script passes
`test_size=0.2, random_state=42` to `train_test_split`. -/
theorem C4_counterexample :
    ¬ (split_call_args = train_test_split_defaults ∧
       model_call_args = linear_regression_defaults ∧
       mse_call_args = score_defaults ∧
       r2_call_args = score_defaults) := by
  intro h
  exact absurd (congrArg TrainTestSplitArgs.random_state h.1) (by decide)

/-- C4 amended: each step of the regression (split, fit, predict, the two
scorings) is a single library call, and the fit, predict and scoring calls
use the library defaults; the split call deviates from the defaults exactly
by passing `test_size=0.2` and `random_state=42`. -/
theorem C4_regression_call_args :
    regression_step_calls =
      ["train_test_split", "LinearRegression.fit", "LinearRegression.predict",
       "mean_squared_error", "r2_score"] ∧
    model_call_args = linear_regression_defaults ∧
    mse_call_args = score_defaults ∧
    r2_call_args = score_defaults ∧
    split_call_args =
      { train_test_split_defaults with
          test_size := some (1/5), random_state := some 42 } :=
  ⟨rfl, rfl, rfl, rfl, rfl⟩

/-! ### C5: the world-map chart -/

/-- Pairing each row with a derived column and projecting back is the
identity. -/
theorem map_fst_pair {β : Type} (f : Row → β) (l : List Row) :
    (l.map fun r => (r, f r)).map Prod.fst = l := by
  induction l with
  | nil => rfl
  | cons a t ih => simp [ih]

/-- Projection extracting the geo charts from an event list. -/
def getGeoChart : UIEvent → Option (ChartKind × List (Row × Option ℚ) × String × String)
  | .geoChart k rows c sz => some (k, rows, c, sz)
  | _ => none

/-- The geo charts emitted by `global_overview`. -/
def overviewMapCharts (p : RenderParams) (s : AppState) :
    List (ChartKind × List (Row × Option ℚ) × String × String) :=
  ((global_overview p s).2).filterMap getGeoChart

/-- C5 counterexample: the world map of `global_overview` is not a
choropleth — on the empty loaded dataset (or any other) the one geo chart
emitted has kind `scatter_geo`. -/
theorem C5_counterexample :
    ¬ ∀ ch ∈ overviewMapCharts trivialParams (loadState (some [])),
        ch.1 = ChartKind.choropleth := by
  decide

/-- C5 amended: the global overview renders the world map of cases as a
`px.scatter_geo` bubble map whose dataframe is the latest snapshot (extended
with a `log_cases` column), coloured by `total_cases` and sized by
`log_cases`. -/
theorem C5_overview_map (p : RenderParams) (s : AppState) :
    ∃ rows,
      overviewMapCharts p s =
        [(ChartKind.scatter_geo, rows, "total_cases", "log_cases")] ∧
      rows.map Prod.fst = s.latest_data := by
  exact ⟨s.latest_data.map fun r => (r, r.total_cases.map p.log1p), rfl,
    map_fst_pair _ _⟩

/-! ### C9: unguarded division in the vaccination percentage -/

/-- A top-10 candidate row with zero population. -/
def rowPopZero : Row :=
  { rowMissing with people_fully_vaccinated := some 5, population := some 0 }

/-- C9: preprocessing never fills `population` (it keeps whatever was
fetched), and the percentage `people_fully_vaccinated / population * 100` is
computed with no guard: a zero population makes it non-finite (an infinity,
or NaN when the numerator is also 0), and a missing population makes it
missing (NaN). -/
theorem C9_percent_unguarded (r : Row) :
    (fillRow r).population = r.population ∧
    (r.population = some 0 → (vaccPercent r).isFinite = false) ∧
    (r.population = none → vaccPercent r = NumVal.nan) := by
  refine ⟨rfl, fun h0 => ?_, fun hn => ?_⟩
  · cases hv : r.people_fully_vaccinated with
    | none => simp [vaccPercent, pctOfNum, hv, h0, NumVal.isFinite]
    | some v =>
      rcases lt_trichotomy v 0 with hlt | rfl | hgt
      · simp [vaccPercent, pctOfNum, hv, h0, NumVal.isFinite, ne_of_lt hlt,
          not_lt.mpr (le_of_lt hlt)]
      · simp [vaccPercent, pctOfNum, hv, h0, NumVal.isFinite]
      · simp [vaccPercent, pctOfNum, hv, h0, NumVal.isFinite, ne_of_gt hgt, hgt]
  · cases hv : r.people_fully_vaccinated with
    | none => simp [vaccPercent, pctOfNum, hv, hn]
    | some v => simp [vaccPercent, pctOfNum, hv, hn]

/-- Witness for C9 on a concrete zero-population row and a concrete
missing-population row. -/
theorem C9_percent_unguarded_witness :
    (vaccPercent rowPopZero).isFinite = false ∧
    vaccPercent rowMissing = NumVal.nan := by
  exact ⟨(C9_percent_unguarded rowPopZero).2.1 rfl,
    (C9_percent_unguarded rowMissing).2.2 rfl⟩

/-! ### C1: the latest snapshot -/

/-- The claim as stated: every snapshot row is literally a row of the
dataset, namely the one with the maximum date of its location, with one
snapshot row per distinct location. -/
def latestIsMaxDateRow (df : List Row) : Prop :=
  ((latestData df).map Row.location).Nodup ∧
  (∀ r ∈ df, ∃ s ∈ latestData df, s.location = r.location) ∧
  ∀ s ∈ latestData df,
    s ∈ df ∧ ∀ t ∈ df, t.location = s.location → t.date ≤ s.date

instance (df : List Row) : Decidable (latestIsMaxDateRow df) := by
  unfold latestIsMaxDateRow; infer_instance

/-- An early row of location `A` with a known population. -/
def rowEarly : Row :=
  { location := "A"
    date := 0
    total_cases := some 1
    new_cases := some 1
    total_deaths := some 1
    new_deaths := some 1
    total_vaccinations := some 1
    people_fully_vaccinated := some 1
    population := some 100 }

/-- A later row of location `A` whose population is missing. -/
def rowLate : Row :=
  { rowEarly with
    date := 1
    total_cases := some 2
    new_cases := some 2
    total_deaths := some 2
    new_deaths := some 2
    total_vaccinations := some 2
    people_fully_vaccinated := some 2
    population := none }

/-- A two-row preprocessed dataset on which the claim fails. -/
def exDf : List Row := [rowEarly, rowLate]

/-- C1 counterexample: on `exDf` the snapshot row of location `A` mixes
columns of both rows — `GroupBy.last` takes the last non-null entry per
column, so it gets `population = 100` from the earlier row and every other
column from the later one.  The resulting row is not a row of the dataset at
all, hence not the maximum-date row. -/
theorem C1_counterexample : ¬ latestIsMaxDateRow exDf := by
  decide

/-- C1 amended: the snapshot has exactly one row per distinct location of the
dataset; in that row, `date` is the date of the location's positionally last
row, and every other column holds the last non-missing value of that column
among the location's rows in dataframe order (missing only if the column is
missing throughout) — the values need not all come from one single row, nor
from the maximum-date row. -/
theorem C1_latest_snapshot (df : List Row) :
    ((latestData df).map Row.location).Nodup ∧
    (∀ r ∈ df, ∃ s ∈ latestData df, s.location = r.location) ∧
    ∀ s ∈ latestData df,
      (df.filter fun r => r.location == s.location) ≠ [] ∧
      s.date =
        (((df.filter fun r => r.location == s.location).map Row.date).getLast?).getD 0 ∧
      s.total_cases = lastSome Row.total_cases (df.filter fun r => r.location == s.location) ∧
      s.new_cases = lastSome Row.new_cases (df.filter fun r => r.location == s.location) ∧
      s.total_deaths = lastSome Row.total_deaths (df.filter fun r => r.location == s.location) ∧
      s.new_deaths = lastSome Row.new_deaths (df.filter fun r => r.location == s.location) ∧
      s.total_vaccinations
        = lastSome Row.total_vaccinations (df.filter fun r => r.location == s.location) ∧
      s.people_fully_vaccinated
        = lastSome Row.people_fully_vaccinated (df.filter fun r => r.location == s.location) ∧
      s.population = lastSome Row.population (df.filter fun r => r.location == s.location) := by
  have hkeys : ∀ loc, loc ∈ groupKeys df → ∃ r ∈ df, r.location = loc := by
    intro loc hloc
    have : loc ∈ (df.map Row.location).dedup :=
      ((List.perm_insertionSort _ _).mem_iff).mp hloc
    obtain ⟨r, hr, hrl⟩ := List.mem_map.mp (List.mem_dedup.mp this)
    exact ⟨r, hr, hrl⟩
  refine ⟨?_, ?_, ?_⟩
  · have hmap : (latestData df).map Row.location = groupKeys df := by
      show ((groupKeys df).map fun loc =>
          groupLast loc (df.filter fun r => r.location == loc)).map Row.location
        = groupKeys df
      induction groupKeys df with
      | nil => rfl
      | cons a t ih =>
        simp only [List.map_cons, List.cons.injEq]
        exact ⟨rfl, ih⟩
    rw [hmap]
    exact ((List.perm_insertionSort _ _).symm).nodup (List.nodup_dedup _)
  · intro r hr
    have hloc : r.location ∈ groupKeys df := by
      have : r.location ∈ (df.map Row.location).dedup :=
        List.mem_dedup.mpr (List.mem_map_of_mem Row.location hr)
      exact ((List.perm_insertionSort _ _).mem_iff).mpr this
    exact ⟨groupLast r.location (df.filter fun t => t.location == r.location),
      List.mem_map_of_mem _ hloc, rfl⟩
  · intro s hs
    obtain ⟨loc, hloc, rfl⟩ := List.mem_map.mp hs
    obtain ⟨r, hr, hrl⟩ := hkeys loc hloc
    have hrf : r ∈ df.filter fun t => t.location == loc :=
      List.mem_filter.mpr ⟨hr, by simpa using hrl⟩
    exact ⟨List.ne_nil_of_mem hrf, rfl, rfl, rfl, rfl, rfl, rfl, rfl, rfl⟩

/-- Witness for C1 on the concrete dataset `exDf`: location `A` does get a
snapshot row. -/
theorem C1_latest_snapshot_witness :
    ∃ s ∈ latestData exDf, s.location = rowLate.location := by
  exact (C1_latest_snapshot exDf).2.1 rowLate (by decide)

/-! ### C8: the top-10 vaccination charts -/

/-- C8: the vaccination charts come from the latest snapshot: the bar chart
plots the `nlargest 10` rows by `total_vaccinations` — a sub-permutation of
`latest_data`, of size `min 10` (count of rows with a present key), whose
`total_vaccinations` dominates every unplotted row — and the percentage
chart plots the same rows with `people_fully_vaccinated / population * 100`
as their plotted percentage. -/
theorem C8_vaccination_top10 (s : AppState) :
    (vaccination_progress s).2 =
      [ .header "Vaccination Progress"
      , .barChart (nlargestBy 10 Row.total_vaccinations s.latest_data)
          "location" "total_vaccinations"
      , .barChartPct
          ((nlargestBy 10 Row.total_vaccinations s.latest_data).map fun r =>
            (r, vaccPercent r))
          "location" "vaccination_percentage" ] ∧
    (nlargestBy 10 Row.total_vaccinations s.latest_data).length =
      min 10 (s.latest_data.filter fun r => r.total_vaccinations.isSome).length ∧
    List.Subperm (nlargestBy 10 Row.total_vaccinations s.latest_data) s.latest_data ∧
    (∀ t ∈ s.latest_data, t.total_vaccinations.isSome = true →
      t ∉ nlargestBy 10 Row.total_vaccinations s.latest_data →
      ∀ r ∈ nlargestBy 10 Row.total_vaccinations s.latest_data,
        t.total_vaccinations.getD 0 ≤ r.total_vaccinations.getD 0) ∧
    ∀ pr ∈ (nlargestBy 10 Row.total_vaccinations s.latest_data).map fun r =>
        (r, vaccPercent r),
      ∀ v pop : ℚ, pr.1.people_fully_vaccinated = some v →
        pr.1.population = some pop → pop ≠ 0 →
        pr.2 = NumVal.num (v / pop * 100) := by
  refine ⟨rfl, ?_, ?_, ?_, ?_⟩
  · unfold nlargestBy
    rw [List.length_take, (List.perm_insertionSort _ _).length_eq]
  · have h1 : List.Sublist (nlargestBy 10 Row.total_vaccinations s.latest_data)
        ((s.latest_data.filter fun r =>
          (Row.total_vaccinations r).isSome).insertionSort
          (descBy Row.total_vaccinations)) :=
      List.take_sublist _ _
    have h2 := List.perm_insertionSort (descBy Row.total_vaccinations)
      (s.latest_data.filter fun r => (Row.total_vaccinations r).isSome)
    have h3 : List.Sublist
        (s.latest_data.filter fun r => (Row.total_vaccinations r).isSome)
        s.latest_data := List.filter_sublist _
    exact (h1.subperm.trans h2.subperm).trans h3.subperm
  · intro t ht hsome hnot r hr
    have htf : t ∈ s.latest_data.filter fun x => (Row.total_vaccinations x).isSome :=
      List.mem_filter.mpr ⟨ht, hsome⟩
    have hts : t ∈ (s.latest_data.filter fun x =>
        (Row.total_vaccinations x).isSome).insertionSort (descBy Row.total_vaccinations) :=
      ((List.perm_insertionSort _ _).mem_iff).mpr htf
    have hsplit :
        (s.latest_data.filter fun x =>
          (Row.total_vaccinations x).isSome).insertionSort (descBy Row.total_vaccinations)
        = ((s.latest_data.filter fun x =>
            (Row.total_vaccinations x).isSome).insertionSort
              (descBy Row.total_vaccinations)).take 10
          ++ ((s.latest_data.filter fun x =>
            (Row.total_vaccinations x).isSome).insertionSort
              (descBy Row.total_vaccinations)).drop 10 :=
      (List.take_append_drop 10 _).symm
    have hsorted := List.sorted_insertionSort (descBy Row.total_vaccinations)
      (s.latest_data.filter fun x => (Row.total_vaccinations x).isSome)
    have hpw := (List.pairwise_append.mp (hsplit ▸ hsorted)).2.2
    have htd : t ∈ ((s.latest_data.filter fun x =>
        (Row.total_vaccinations x).isSome).insertionSort
          (descBy Row.total_vaccinations)).drop 10 := by
      rcases List.mem_append.mp (hsplit ▸ hts) with h | h
      · exact absurd h hnot
      · exact h
    exact hpw r hr t htd
  · intro pr hpr v pop hv hpop hne
    obtain ⟨r, hr, rfl⟩ := List.mem_map.mp hpr
    simp only at hv hpop
    simp [vaccPercent, pctOfNum, hv, hpop, hne]

/-- A loaded one-row state used by witnesses. -/
def sampleState : AppState :=
  { df := some [rowEarly], latest_data := [rowEarly], countries := ["A"] }

/-- Witness for C8 on the one-row state: the plotted percentage of the single
top row is `1 / 100 * 100 = 1`, and one row is plotted. -/
theorem C8_vaccination_top10_witness :
    vaccPercent rowEarly = NumVal.num 1 ∧
    (nlargestBy 10 Row.total_vaccinations sampleState.latest_data).length = 1 := by
  have h := C8_vaccination_top10 sampleState
  have hnl : nlargestBy 10 Row.total_vaccinations sampleState.latest_data
      = [rowEarly] := rfl
  have hmem : (rowEarly, vaccPercent rowEarly)
      ∈ (nlargestBy 10 Row.total_vaccinations sampleState.latest_data).map
          fun r => (r, vaccPercent r) := by
    rw [hnl]; exact List.mem_singleton.mpr rfl
  have hp := h.2.2.2.2 (rowEarly, vaccPercent rowEarly) hmem 1 100 rfl rfl
    (by norm_num)
  have hq : (1 : ℚ) / 100 * 100 = 1 := by norm_num
  have hp2 : vaccPercent rowEarly = NumVal.num (1 / 100 * 100) := hp
  refine ⟨?_, ?_⟩
  · rw [hp2, hq]
  · rw [h.2.1]; decide

/-! ### C10: rendering leaves the loaded data unchanged -/

/-- Every single section renderer returns the state it was given. -/
theorem runSection_fst (p : RenderParams) (inp : Inputs) (c : SectionCall)
    (s : AppState) : (runSection p inp c s).1 = s := by
  cases c <;> rfl

/-- C10: rendering is pure with respect to the loaded data — any sequence of
the four section renderings returns the state (so `self.df` and
`self.latest_data` keep their post-`load_data` values); `global_overview`
attaches `log_cases` only to a copy whose rows project back to
`latest_data`, and `vaccination_progress` attaches the percentage only to
the `nlargest` result. -/
theorem C10_render_frame (p : RenderParams) (inp : Inputs)
    (calls : List SectionCall) (s : AppState) :
    (runSections p inp calls s).1 = s ∧
    (runSections p inp calls s).1.df = s.df ∧
    (runSections p inp calls s).1.latest_data = s.latest_data ∧
    (global_overview p s).1 = s ∧
    (time_series_analysis inp s).1 = s ∧
    (vaccination_progress s).1 = s ∧
    (predictive_modeling p inp s).1 = s ∧
    (∀ ch ∈ overviewMapCharts p s, (ch.2.1).map Prod.fst = s.latest_data) ∧
    ((nlargestBy 10 Row.total_vaccinations s.latest_data).map fun r =>
        (r, vaccPercent r)).map Prod.fst
      = nlargestBy 10 Row.total_vaccinations s.latest_data := by
  have hrun : ∀ cs t, (runSections p inp cs t).1 = t := by
    intro cs
    induction cs with
    | nil => intro t; rfl
    | cons c cs ih =>
      intro t
      calc (runSections p inp (c :: cs) t).1
          = (runSections p inp cs (runSection p inp c t).1).1 := rfl
        _ = t := by rw [runSection_fst, ih]
  refine ⟨hrun calls s, by rw [hrun calls s], by rw [hrun calls s],
    rfl, rfl, rfl, rfl, ?_, map_fst_pair _ _⟩
  intro ch hch
  obtain ⟨loc, hloc, rfl⟩ := by
    simpa [overviewMapCharts, global_overview, getGeoChart] using hch
  exact map_fst_pair _ _

/-- Witness for C10: running all four sections on the concrete one-row state
returns exactly that state. -/
theorem C10_render_frame_witness :
    (runSections trivialParams sampleInputs
      [SectionCall.overview, SectionCall.timeSeries, SectionCall.vaccination,
       SectionCall.prediction] sampleState).1 = sampleState :=
  (C10_render_frame trivialParams sampleInputs
    [SectionCall.overview, SectionCall.timeSeries, SectionCall.vaccination,
     SectionCall.prediction] sampleState).1

end CovidExplorer
